import Mathlib

/-!
# Verification of the go-fs file-lock state machine

Shallow embedding of the `FileLock` implementations of the go-fs repository
(`filelock/windows/filelock_windows.go` and the structurally identical unix
variant). The OS is modelled by oracles: each lock attempt, file open,
release and close has an outcome supplied from outside, and time is
idealized (each `time.Sleep(d)` advances the clock by exactly `d`
nanoseconds, syscalls are instantaneous). Durations are `Int` nanoseconds,
mirroring the Go type `time.Duration` (int64); no value in range ever overflows.
-/

namespace GoFs

/-- Outcome of one non-blocking exclusive-lock syscall
(`windows.LockFileEx` with `LOCKFILE_FAIL_IMMEDIATELY`, or
`syscall.Flock` with `LOCK_EX|LOCK_NB`): acquired (`err == nil`),
held by another holder (`ERROR_LOCK_VIOLATION` / `EWOULDBLOCK`),
or some other OS error identified by a numeric code. -/
inductive AttemptResult where
  | acquired : AttemptResult
  | held : AttemptResult
  | osError (code : Nat) : AttemptResult
  deriving DecidableEq, Repr

/-- The errors a `FileLock` call can return: the four domain errors declared
in package `filelock` (`ErrTimeout`, `ErrLockHeld`, `ErrAlreadyLocked`,
`ErrNotLocked`) plus passthrough OS errors. -/
inductive LockErr where
  | errTimeout : LockErr
  | errLockHeld : LockErr
  | errAlreadyLocked : LockErr
  | errNotLocked : LockErr
  | osError (code : Nat) : LockErr
  deriving DecidableEq, Repr

/-- The mutable state of one `FileLock` handle, as protected by `fl.mutex`:
`locked` is the Go field `locked`; `fileOpen` is whether `fl.file != nil`
(the descriptor is open); `osHeld` is ghost state recording whether the OS
exclusive lock is currently held through the descriptor of this handle. -/
structure FileLockState where
  locked : Bool
  fileOpen : Bool
  osHeld : Bool
  deriving DecidableEq, Repr

/-- `New(path)` constructs the handle with `locked: false` and no file. -/
def newFileLock : FileLockState := ⟨false, false, false⟩

/-- One retry-interval update of `tryLock`:
`if retryInterval < time.Millisecond*100 { retryInterval = time.Duration(float64(retryInterval) * 1.5) }`.
All reachable interval values are even integers below 2^53, so the float64
multiplication by 1.5 followed by truncation is exactly `iv * 3 / 2`. -/
def bumpInterval (iv : Nat) : Nat :=
  if iv < 100000000 then iv * 3 / 2 else iv

/-- The retry interval (in nanoseconds) in effect for the k-th sleep of the
retry loop: starts at `time.Millisecond * 10` and is bumped once per
iteration. -/
def backoffInterval : Nat → Nat
  | 0 => 10000000
  | k + 1 => bumpInterval (backoffInterval k)

/-- Total nanoseconds slept before the k-th loop iteration begins; in the
idealized timing model this is the value of `time.Since(startTime)` at the
top of iteration k. -/
def sleepSum : Nat → Nat
  | 0 => 0
  | k + 1 => sleepSum k + backoffInterval k

/-- Every retry interval is positive (needed for the retry loop to make
progress towards its deadline). -/
theorem backoffInterval_pos (k : Nat) : 0 < backoffInterval k := by
  induction k with
  | zero => simp [backoffInterval]
  | succ n ih =>
      simp only [backoffInterval, bumpInterval]
      split
      · exact Nat.div_pos (by omega) (by omega)
      · exact ih

/-- The retry loop of `tryLock` for `timeout > 0`, started at iteration `k`
(the initial call is with `k = 0`). `att n` is the outcome of the n-th
lock syscall of the whole `tryLock` call (attempt 0 happened before the
loop), so the attempt inside iteration `k` is `att (k + 1)`. Returns the
result of the call (`none` = lock acquired) and the list of sleep durations
performed from iteration `k` on. Each iteration: if
`time.Since(startTime) >= timeout` return `ErrTimeout`; else sleep one
interval, bump the interval, re-attempt; on `nil` return success, on a
non-"held" error return it, otherwise loop. -/
def tryLockLoop (timeout : Nat) (att : Nat → AttemptResult) (k : Nat) :
    Option LockErr × List Nat :=
  if _h : timeout ≤ sleepSum k then
    (some .errTimeout, [])
  else
    match att (k + 1) with
    | .acquired => (none, [backoffInterval k])
    | .osError c => (some (.osError c), [backoffInterval k])
    | .held =>
        let rest := tryLockLoop timeout att (k + 1)
        (rest.1, backoffInterval k :: rest.2)
termination_by timeout - sleepSum k
decreasing_by
  have hpos := backoffInterval_pos k
  simp only [sleepSum]
  omega

/-- `fl.tryLock(timeout)`: one non-blocking attempt; on success or a
non-"held" error return immediately; if held and `timeout <= 0` return
`ErrLockHeld`; otherwise enter the retry loop. Returns the result
(`none` = acquired) and the list of sleeps performed. -/
def tryLock (timeout : Int) (att : Nat → AttemptResult) :
    Option LockErr × List Nat :=
  match att 0 with
  | .acquired => (none, [])
  | .osError c => (some (.osError c), [])
  | .held =>
      if timeout ≤ 0 then (some .errLockHeld, [])
      else tryLockLoop timeout.toNat att 0

/-- Outcome of `os.OpenFile(fl.path, os.O_CREATE|os.O_RDWR, 0666)`. -/
inductive OpenResult where
  | ok : OpenResult
  | fail (code : Nat) : OpenResult
  deriving DecidableEq, Repr

/-- The OS outcomes one `Lock`/`LockWithTimeout` call can observe: the open
result and the per-attempt lock-syscall results. -/
structure LockOracle where
  openRes : OpenResult
  att : Nat → AttemptResult

/-- The OS outcomes one `Unlock` call can observe: the release
(`UnlockFileEx` / `Flock(LOCK_UN)`) result and the `file.Close()` result
(`none` = success, `some code` = error). -/
structure UnlockOracle where
  releaseRes : Option Nat
  closeRes : Option Nat
  deriving DecidableEq, Repr

/-- What one call returns and leaves behind: the returned error
(`none` = nil), the handle state after the call, and the sleeps performed. -/
structure CallResult where
  err : Option LockErr
  st : FileLockState
  sleeps : List Nat
  deriving DecidableEq, Repr

/-- `fl.LockWithTimeout(timeout)`: under the mutex, fail with
`ErrAlreadyLocked` if `locked`; open-or-create the file (on error, `fl.file`
is assigned nil and the error returned); call `tryLock`; on error close the
file, set it to nil and return the error; on success set `locked = true`. -/
def lockWithTimeout (timeout : Int) (o : LockOracle) (st : FileLockState) :
    CallResult :=
  if st.locked then
    ⟨some .errAlreadyLocked, st, []⟩
  else
    match o.openRes with
    | .fail c => ⟨some (.osError c), { st with fileOpen := false }, []⟩
    | .ok =>
        let st1 : FileLockState := { st with fileOpen := true }
        let r := tryLock timeout o.att
        match r.1 with
        | some e =>
            ⟨some e, { st1 with fileOpen := false, osHeld := false }, r.2⟩
        | none =>
            ⟨none, { st1 with locked := true, osHeld := true }, r.2⟩

/-- `fl.Lock()`: `return fl.LockWithTimeout(0)`. -/
def lock (o : LockOracle) (st : FileLockState) : CallResult :=
  lockWithTimeout 0 o st

/-- `fl.Unlock()`: under the mutex, fail with `ErrNotLocked` if
`!fl.locked || fl.file == nil`; release the OS lock — on release error,
return that error at once (state untouched); then close the file, set
`fl.file = nil` and `fl.locked = false`, returning the close error if any. -/
def unlock (o : UnlockOracle) (st : FileLockState) : CallResult :=
  if st.locked = false ∨ st.fileOpen = false then
    ⟨some .errNotLocked, st, []⟩
  else
    match o.releaseRes with
    | some c => ⟨some (.osError c), st, []⟩
    | none =>
        let st2 : FileLockState := ⟨false, false, false⟩
        match o.closeRes with
        | some c => ⟨some (.osError c), st2, []⟩
        | none => ⟨none, st2, []⟩

/-- `fl.IsLocked()`: returns `fl.locked` under the mutex. -/
def isLocked (st : FileLockState) : Bool := st.locked

/-- An attempt oracle describing contention that never goes away: every
lock syscall reports "held by another holder". -/
def alwaysHeld : Nat → AttemptResult := fun _ => .held

/-- One call against the handle, with the OS outcomes it will observe. -/
inductive Call where
  | lockCall (o : LockOracle) : Call
  | lockWithTimeoutCall (t : Int) (o : LockOracle) : Call
  | unlockCall (o : UnlockOracle) : Call

/-- The state after one call (the returned error is dropped). -/
def step (st : FileLockState) : Call → FileLockState
  | .lockCall o => (lock o st).st
  | .lockWithTimeoutCall t o => (lockWithTimeout t o st).st
  | .unlockCall o => (unlock o st).st

/-- Run a sequence of calls from the freshly constructed handle. -/
def runCalls (cs : List Call) : FileLockState :=
  cs.foldl step newFileLock

/-- The data-model invariant of the spec: `locked == true` implies the
descriptor is a valid open handle holding the OS exclusive lock, and
`locked == false` implies the descriptor is absent. -/
def StateInv (st : FileLockState) : Prop :=
  (st.locked = true → st.fileOpen = true ∧ st.osHeld = true) ∧
  (st.locked = false → st.fileOpen = false)

/-- Modelled from the spec: the failure kinds the interface table of the
spec lists for `LockWithTimeout` — `AlreadyLocked`, `Timeout`, or a
passthrough OS error. Used to compare the table against the code. -/
def specTableFailure : LockErr → Bool
  | .errAlreadyLocked => true
  | .errTimeout => true
  | .osError _ => true
  | .errLockHeld => false
  | .errNotLocked => false

/-! ## Support lemmas about the retry loop -/

/-- Unfolding: the loop stops with `ErrTimeout` once the elapsed time has
reached the timeout. -/
theorem tryLockLoop_stop (timeout : Nat) (att : Nat → AttemptResult)
    (k : Nat) (h : timeout ≤ sleepSum k) :
    tryLockLoop timeout att k = (some .errTimeout, []) := by
  rw [tryLockLoop]
  simp [h]

/-- Unfolding: before the deadline, a "held" attempt sleeps one interval
and continues. -/
theorem tryLockLoop_go (timeout : Nat) (att : Nat → AttemptResult) (k : Nat)
    (h : sleepSum k < timeout) (ha : att (k + 1) = .held) :
    tryLockLoop timeout att k =
      ((tryLockLoop timeout att (k + 1)).1,
        backoffInterval k :: (tryLockLoop timeout att (k + 1)).2) := by
  rw [tryLockLoop]
  simp [Nat.not_le.mpr h, ha]

/-- Unfolding: before the deadline, an attempt that acquires the lock ends
the loop with success. -/
theorem tryLockLoop_acq (timeout : Nat) (att : Nat → AttemptResult) (k : Nat)
    (h : sleepSum k < timeout) (ha : att (k + 1) = .acquired) :
    tryLockLoop timeout att k = (none, [backoffInterval k]) := by
  rw [tryLockLoop]
  simp [Nat.not_le.mpr h, ha]

/-- Unfolding: before the deadline, an attempt that fails with a non-"held"
OS error ends the loop with that error. -/
theorem tryLockLoop_oserr (timeout : Nat) (att : Nat → AttemptResult)
    (k : Nat) (c : Nat) (h : sleepSum k < timeout)
    (ha : att (k + 1) = .osError c) :
    tryLockLoop timeout att k = (some (.osError c), [backoffInterval k]) := by
  rw [tryLockLoop]
  simp [Nat.not_le.mpr h, ha]

/-- From the seventh sleep on, the retry interval is frozen at
113906250 ns (the bump guard `iv < 100ms` has become false). -/
theorem backoffInterval_stable (m : Nat) :
    backoffInterval (6 + m) = 113906250 := by
  induction m with
  | zero => decide
  | succ n ih =>
      have h1 : 6 + (n + 1) = (6 + n) + 1 := by omega
      rw [h1]
      simp only [backoffInterval, ih, bumpInterval]
      norm_num

/-- No retry interval ever exceeds 113906250 ns. -/
theorem backoffInterval_le (k : Nat) : backoffInterval k ≤ 113906250 := by
  by_cases h : k < 6
  · interval_cases k <;> decide
  · have h2 : k = 6 + (k - 6) := by omega
    rw [h2, backoffInterval_stable]

/-- The retry loop only ever ends in success, `ErrTimeout`, or a
passthrough OS error. -/
theorem tryLockLoop_result (timeout : Nat) (att : Nat → AttemptResult) :
    ∀ n k, timeout - sleepSum k ≤ n →
      (tryLockLoop timeout att k).1 = none ∨
      (tryLockLoop timeout att k).1 = some .errTimeout ∨
      ∃ c, (tryLockLoop timeout att k).1 = some (.osError c) := by
  intro n
  induction n with
  | zero =>
      intro k hk
      have h : timeout ≤ sleepSum k := by omega
      rw [tryLockLoop_stop timeout att k h]
      simp
  | succ n ih =>
      intro k hk
      by_cases hle : timeout ≤ sleepSum k
      · rw [tryLockLoop_stop timeout att k hle]
        simp
      · have hlt : sleepSum k < timeout := by omega
        have hnext : timeout - sleepSum (k + 1) ≤ n := by
          have hpos := backoffInterval_pos k
          simp only [sleepSum]
          omega
        cases ha : att (k + 1) with
        | acquired =>
            rw [tryLockLoop_acq timeout att k hlt ha]
            simp
        | held =>
            rw [tryLockLoop_go timeout att k hlt ha]
            simpa using ih (k + 1) hnext
        | osError c =>
            rw [tryLockLoop_oserr timeout att k c hlt ha]
            simp

/-- Against never-released contention, the retry loop times out, the total
time slept is at least the timeout, and it overshoots the deadline by less
than one retry interval (hence by less than 113906250 ns). -/
theorem tryLockLoop_allHeld (timeout : Nat) :
    ∀ n k, timeout - sleepSum k ≤ n →
      (tryLockLoop timeout alwaysHeld k).1 = some .errTimeout ∧
      timeout ≤ sleepSum k + ((tryLockLoop timeout alwaysHeld k).2).sum ∧
      (sleepSum k < timeout →
        sleepSum k + ((tryLockLoop timeout alwaysHeld k).2).sum <
          timeout + 113906250) := by
  intro n
  induction n with
  | zero =>
      intro k hk
      have h : timeout ≤ sleepSum k := by omega
      rw [tryLockLoop_stop timeout alwaysHeld k h]
      refine ⟨rfl, by simpa using h, ?_⟩
      intro hlt
      omega
  | succ n ih =>
      intro k hk
      by_cases hle : timeout ≤ sleepSum k
      · rw [tryLockLoop_stop timeout alwaysHeld k hle]
        refine ⟨rfl, by simpa using hle, ?_⟩
        intro hlt
        omega
      · have hlt : sleepSum k < timeout := by omega
        have hpos := backoffInterval_pos k
        have hnext : timeout - sleepSum (k + 1) ≤ n := by
          simp only [sleepSum]
          omega
        have hstep := tryLockLoop_go timeout alwaysHeld k hlt rfl
        obtain ⟨ih1, ih2, ih3⟩ := ih (k + 1) hnext
        rw [hstep]
        have hsum : sleepSum (k + 1) = sleepSum k + backoffInterval k := rfl
        refine ⟨ih1, ?_, ?_⟩
        · simp only [List.sum_cons]
          omega
        · intro _
          simp only [List.sum_cons]
          by_cases hc : sleepSum (k + 1) < timeout
          · have := ih3 hc
            omega
          · have hstop : timeout ≤ sleepSum (k + 1) := by omega
            rw [tryLockLoop_stop timeout alwaysHeld (k + 1) hstop]
            have hle2 := backoffInterval_le k
            simp only [List.sum_nil]
            omega

/-- `tryLock` with a nonpositive timeout behaves exactly like
`tryLock 0`: one attempt, never a sleep. -/
theorem tryLock_nonpos (t : Int) (h : t ≤ 0) (att : Nat → AttemptResult) :
    tryLock t att = tryLock 0 att := by
  unfold tryLock
  cases att 0 <;> simp [h]

/-- `tryLock 0` performs no sleep. -/
theorem tryLock_zero_sleeps (att : Nat → AttemptResult) :
    (tryLock 0 att).2 = [] := by
  unfold tryLock
  cases att 0 <;> simp

/-- Every failing `tryLock` yields `ErrLockHeld` (only with `timeout <= 0`),
`ErrTimeout` (only with `timeout > 0`), or a passthrough OS error. -/
theorem tryLock_failure (t : Int) (att : Nat → AttemptResult) (e : LockErr)
    (h : (tryLock t att).1 = some e) :
    (e = .errLockHeld ∧ t ≤ 0) ∨ (e = .errTimeout ∧ 0 < t) ∨
      ∃ c, e = .osError c := by
  unfold tryLock at h
  cases ha : att 0 with
  | acquired => rw [ha] at h; simp at h
  | osError c =>
      rw [ha] at h
      simp at h
      exact Or.inr (Or.inr ⟨c, h.symm⟩)
  | held =>
      rw [ha] at h
      by_cases ht : t ≤ 0
      · simp [ht] at h
        exact Or.inl ⟨h.symm, ht⟩
      · simp [ht] at h
        rcases tryLockLoop_result t.toNat att t.toNat 0 (by simp [sleepSum])
          with h1 | h1 | ⟨c, h1⟩
        · rw [h1] at h; simp at h
        · rw [h1] at h
          exact Or.inr (Or.inl ⟨(Option.some.injEq _ _ ▸ h).symm, by omega⟩)
        · rw [h1] at h
          exact Or.inr (Or.inr ⟨c, (Option.some.injEq _ _ ▸ h).symm⟩)

/-- `LockWithTimeout` with a nonpositive timeout behaves exactly like
`LockWithTimeout 0`. -/
theorem lockWithTimeout_nonpos (t : Int) (h : t ≤ 0) (o : LockOracle)
    (st : FileLockState) :
    lockWithTimeout t o st = lockWithTimeout 0 o st := by
  unfold lockWithTimeout
  rw [tryLock_nonpos t h o.att]

/-- A `LockWithTimeout 0` call never sleeps and never returns `ErrTimeout`
or `ErrNotLocked`. -/
theorem lockWithTimeout_zero_char (o : LockOracle) (st : FileLockState) :
    (lockWithTimeout 0 o st).sleeps = [] ∧
    (lockWithTimeout 0 o st).err ≠ some .errTimeout ∧
    (lockWithTimeout 0 o st).err ≠ some .errNotLocked := by
  unfold lockWithTimeout tryLock
  by_cases hl : st.locked <;>
    cases ho : o.openRes <;>
      cases ha : o.att 0 <;>
        simp [hl, ho, ha]

/-- Any `LockWithTimeout` call leaves a state satisfying the data-model
invariant, provided the caller state satisfied it. -/
theorem lockWithTimeout_preserves (t : Int) (o : LockOracle)
    (st : FileLockState) (h : StateInv st) :
    StateInv (lockWithTimeout t o st).st := by
  unfold lockWithTimeout
  by_cases hl : st.locked
  · simpa [hl] using h
  · rw [Bool.not_eq_true] at hl
    cases ho : o.openRes with
    | fail c => simp [hl, ho, StateInv]
    | ok =>
        cases hr : (tryLock t o.att).1 <;> simp [hl, ho, hr, StateInv]

/-- Any `Unlock` call leaves a state satisfying the data-model invariant,
provided the caller state satisfied it. -/
theorem unlock_preserves (o : UnlockOracle) (st : FileLockState)
    (h : StateInv st) : StateInv (unlock o st).st := by
  unfold unlock
  by_cases hg : st.locked = false ∨ st.fileOpen = false
  · simpa [hg] using h
  · cases hrel : o.releaseRes with
    | some c => simpa [hg, hrel] using h
    | none => cases hcl : o.closeRes <;> simp [hg, hrel, hcl, StateInv]

/-- Every single call preserves the data-model invariant. -/
theorem step_preserves (st : FileLockState) (c : Call) (h : StateInv st) :
    StateInv (step st c) := by
  cases c with
  | lockCall o => exact lockWithTimeout_preserves 0 o st h
  | lockWithTimeoutCall t o => exact lockWithTimeout_preserves t o st h
  | unlockCall o => exact unlock_preserves o st h

/-- Folding any call sequence from an invariant state stays invariant. -/
theorem foldl_step_preserves (cs : List Call) :
    ∀ st : FileLockState, StateInv st → StateInv (cs.foldl step st) := by
  induction cs with
  | nil => intro st h; simpa using h
  | cons c cs ih => intro st h; exact ih (step st c) (step_preserves st c h)

/-! ## The claims -/

/-- C1 (amended): if the OS release primitive fails during `Unlock`, the
call returns that error immediately and leaves the handle untouched — the
descriptor stays open and `locked` stays true; the state is not reset. -/
theorem c1_release_error_keeps_state (o : UnlockOracle) (st : FileLockState)
    (c : Nat) (hl : st.locked = true) (hf : st.fileOpen = true)
    (hr : o.releaseRes = some c) :
    unlock o st = ⟨some (.osError c), st, []⟩ := by
  unfold unlock
  simp [hl, hf, hr]

/-- C1 counterexample: on a locked handle with an open descriptor, a failing
release makes `Unlock` return the OS error with `locked` still true and the
descriptor still open — refuting that the descriptor is closed and `locked`
cleared on that path. -/
theorem c1_counterexample :
    (unlock ⟨some 7, none⟩ ⟨true, true, true⟩).err = some (.osError 7) ∧
    (unlock ⟨some 7, none⟩ ⟨true, true, true⟩).st.locked = true ∧
    (unlock ⟨some 7, none⟩ ⟨true, true, true⟩).st.fileOpen = true := by
  decide

/-- C1 witness: the amended statement at a concrete locked state and a
concrete failing release. -/
theorem c1_witness :
    (⟨true, true, true⟩ : FileLockState).locked = true ∧
    (⟨true, true, true⟩ : FileLockState).fileOpen = true ∧
    (⟨some 3, none⟩ : UnlockOracle).releaseRes = some 3 ∧
    unlock ⟨some 3, none⟩ ⟨true, true, true⟩ =
      ⟨some (.osError 3), ⟨true, true, true⟩, []⟩ :=
  ⟨rfl, rfl, rfl,
    c1_release_error_keeps_state ⟨some 3, none⟩ ⟨true, true, true⟩ 3 rfl rfl rfl⟩

/-- C2: the retry intervals start at 10ms and grow by 1.5, but the cap does
not hold: from the seventh sleep on the interval is 113906250 ns
(113.90625 ms), exceeding the 100 ms ceiling stated by the claim and by the
comment in the code itself. Shown both on the interval schedule and on the
sleeps actually performed by a 400 ms contended `tryLock` run. -/
theorem c2_backoff_exceeds_cap :
    backoffInterval 6 = 113906250 ∧
    100000000 < backoffInterval 6 ∧
    (tryLock 400000000 alwaysHeld).2 =
      [10000000, 15000000, 22500000, 33750000, 50625000, 75937500,
        113906250, 113906250] := by
  refine ⟨by decide, by decide, ?_⟩
  have h0 : tryLock 400000000 alwaysHeld =
      tryLockLoop 400000000 alwaysHeld 0 := by
    simp [tryLock, alwaysHeld]
  rw [h0,
    tryLockLoop_go 400000000 alwaysHeld 0 (by decide) rfl,
    tryLockLoop_go 400000000 alwaysHeld 1 (by decide) rfl,
    tryLockLoop_go 400000000 alwaysHeld 2 (by decide) rfl,
    tryLockLoop_go 400000000 alwaysHeld 3 (by decide) rfl,
    tryLockLoop_go 400000000 alwaysHeld 4 (by decide) rfl,
    tryLockLoop_go 400000000 alwaysHeld 5 (by decide) rfl,
    tryLockLoop_go 400000000 alwaysHeld 6 (by decide) rfl,
    tryLockLoop_go 400000000 alwaysHeld 7 (by decide) rfl,
    tryLockLoop_stop 400000000 alwaysHeld 8 (by decide)]
  decide

/-- C3 (amended): against a lock that is never released, a positive-timeout
`tryLock` returns `ErrTimeout` with total sleep time at least the timeout
and below timeout plus one retry interval (every interval is at most
113906250 ns). For a 100 ms timeout the idealized elapsed time at return is
131.875 ms, not approximately 115 ms. -/
theorem c3_timeout_window (t : Int) (h : 0 < t) :
    (tryLock t alwaysHeld).1 = some .errTimeout ∧
    t.toNat ≤ ((tryLock t alwaysHeld).2).sum ∧
    ((tryLock t alwaysHeld).2).sum < t.toNat + 113906250 := by
  have hne : ¬ t ≤ 0 := by omega
  have h0 : tryLock t alwaysHeld = tryLockLoop t.toNat alwaysHeld 0 := by
    simp [tryLock, alwaysHeld, hne]
  obtain ⟨h1, h2, h3⟩ :=
    tryLockLoop_allHeld t.toNat t.toNat 0 (by simp [sleepSum])
  have hpos : 0 < t.toNat := by omega
  rw [h0]
  refine ⟨h1, ?_, ?_⟩
  · simpa [sleepSum] using h2
  · have h4 := h3 (by simpa [sleepSum] using hpos)
    simpa [sleepSum] using h4

/-- C3 counterexample: `tryLock` with a 100 ms timeout against contention
that never goes away returns `ErrTimeout` after 131875000 ns of sleeping — later than
the approximately 115000000 ns the claim asserts. -/
theorem c3_counterexample :
    (tryLock 100000000 alwaysHeld).1 = some .errTimeout ∧
    ((tryLock 100000000 alwaysHeld).2).sum = 131875000 ∧
    115000000 < ((tryLock 100000000 alwaysHeld).2).sum := by
  have h0 : tryLock 100000000 alwaysHeld =
      tryLockLoop 100000000 alwaysHeld 0 := by
    simp [tryLock, alwaysHeld]
  rw [h0,
    tryLockLoop_go 100000000 alwaysHeld 0 (by decide) rfl,
    tryLockLoop_go 100000000 alwaysHeld 1 (by decide) rfl,
    tryLockLoop_go 100000000 alwaysHeld 2 (by decide) rfl,
    tryLockLoop_go 100000000 alwaysHeld 3 (by decide) rfl,
    tryLockLoop_go 100000000 alwaysHeld 4 (by decide) rfl,
    tryLockLoop_stop 100000000 alwaysHeld 5 (by decide)]
  decide

/-- C3 witness: the amended bounds instantiated at the 100 ms timeout. -/
theorem c3_witness :
    (0 : Int) < 100000000 ∧
    ((tryLock 100000000 alwaysHeld).1 = some .errTimeout ∧
      (100000000 : Int).toNat ≤ ((tryLock 100000000 alwaysHeld).2).sum ∧
      ((tryLock 100000000 alwaysHeld).2).sum <
        (100000000 : Int).toNat + 113906250) :=
  ⟨by decide, c3_timeout_window 100000000 (by decide)⟩

/-- C4 (amended): every failing `LockWithTimeout` returns `AlreadyLocked`,
`LockHeld`, `Timeout`, or a passthrough OS error, where `LockHeld` occurs
only with timeout at most 0 and `Timeout` only with positive timeout. -/
theorem c4_failure_kinds (t : Int) (o : LockOracle) (st : FileLockState)
    (e : LockErr) (h : (lockWithTimeout t o st).err = some e) :
    (e = .errAlreadyLocked ∨ e = .errLockHeld ∨ e = .errTimeout ∨
      ∃ c, e = .osError c) ∧
    (e = .errLockHeld → t ≤ 0) ∧ (e = .errTimeout → 0 < t) := by
  unfold lockWithTimeout at h
  by_cases hl : st.locked
  · simp [hl] at h
    subst h
    refine ⟨Or.inl rfl, ?_, ?_⟩ <;> intro he <;> simp at he
  · cases ho : o.openRes with
    | fail c =>
        simp [hl, ho] at h
        subst h
        refine ⟨Or.inr (Or.inr (Or.inr ⟨c, rfl⟩)), ?_, ?_⟩ <;>
          intro he <;> simp at he
    | ok =>
        simp only [hl, ho, Bool.false_eq_true, if_false] at h
        cases hr : (tryLock t o.att).1 with
        | none => rw [hr] at h; simp at h
        | some e1 =>
            rw [hr] at h
            simp at h
            subst h
            rcases tryLock_failure t o.att e1 hr with ⟨he, ht⟩ | ⟨he, ht⟩ |
              ⟨c, he⟩
            · subst he
              exact ⟨Or.inr (Or.inl rfl), fun _ => ht,
                fun hte => by simp at hte⟩
            · subst he
              exact ⟨Or.inr (Or.inr (Or.inl rfl)),
                fun hlh => by simp at hlh, fun _ => ht⟩
            · subst he
              exact ⟨Or.inr (Or.inr (Or.inr ⟨c, rfl⟩)),
                fun hlh => by simp at hlh, fun hte => by simp at hte⟩

/-- C4 counterexample: `LockWithTimeout(0)` under external contention fails
with `ErrLockHeld`, which is not among the failure kinds (AlreadyLocked,
Timeout, OS error) the claim lists. -/
theorem c4_counterexample :
    (lockWithTimeout 0 ⟨.ok, alwaysHeld⟩ newFileLock).err =
      some .errLockHeld ∧
    specTableFailure .errLockHeld = false :=
  ⟨rfl, rfl⟩

/-- C4 witness: the amended statement at the non-blocking contended call. -/
theorem c4_witness :
    (lockWithTimeout 0 ⟨.ok, alwaysHeld⟩ newFileLock).err =
      some .errLockHeld ∧
    ((LockErr.errLockHeld = .errAlreadyLocked ∨
        LockErr.errLockHeld = .errLockHeld ∨
        LockErr.errLockHeld = .errTimeout ∨
        ∃ c, LockErr.errLockHeld = .osError c) ∧
      (LockErr.errLockHeld = .errLockHeld → (0 : Int) ≤ 0) ∧
      (LockErr.errLockHeld = .errTimeout → (0 : Int) < 0)) :=
  ⟨rfl, c4_failure_kinds 0 ⟨.ok, alwaysHeld⟩ newFileLock .errLockHeld rfl⟩

/-- C5: when the handle was unlocked and the open succeeded, any failing
`LockWithTimeout` leaves the descriptor closed and `locked` false, and
`locked` is never set without the OS lock being held. -/
theorem c5_failure_cleanup (t : Int) (o : LockOracle) (st : FileLockState)
    (hl : st.locked = false) (ho : o.openRes = .ok) :
    ((lockWithTimeout t o st).err.isSome = true →
      (lockWithTimeout t o st).st.fileOpen = false ∧
      (lockWithTimeout t o st).st.locked = false) ∧
    ((lockWithTimeout t o st).st.locked = true →
      (lockWithTimeout t o st).st.osHeld = true) := by
  unfold lockWithTimeout
  cases hr : (tryLock t o.att).1 <;> simp [hl, ho, hr]

/-- C5 witness: the cleanup statement at the concrete non-blocking
contended call. -/
theorem c5_witness :
    newFileLock.locked = false ∧
    (⟨OpenResult.ok, alwaysHeld⟩ : LockOracle).openRes = OpenResult.ok ∧
    (((lockWithTimeout 0 ⟨.ok, alwaysHeld⟩ newFileLock).err.isSome = true →
        (lockWithTimeout 0 ⟨.ok, alwaysHeld⟩ newFileLock).st.fileOpen =
          false ∧
        (lockWithTimeout 0 ⟨.ok, alwaysHeld⟩ newFileLock).st.locked =
          false) ∧
      ((lockWithTimeout 0 ⟨.ok, alwaysHeld⟩ newFileLock).st.locked = true →
        (lockWithTimeout 0 ⟨.ok, alwaysHeld⟩ newFileLock).st.osHeld =
          true)) :=
  ⟨rfl, rfl, c5_failure_cleanup 0 ⟨.ok, alwaysHeld⟩ newFileLock rfl rfl⟩

/-- C6: after any sequence of `Lock`, `LockWithTimeout` and `Unlock` calls
from a fresh handle, the state invariant holds: `locked` true implies the
descriptor is open with the OS lock held, `locked` false implies the
descriptor is absent. -/
theorem c6_state_invariant (cs : List Call) : StateInv (runCalls cs) :=
  foldl_step_preserves cs newFileLock (by simp [StateInv, newFileLock])

/-- C7: a `Lock()` call or a `LockWithTimeout` call with nonpositive
timeout performs no sleep, and never fails with `Timeout` or `NotLocked`
(only `AlreadyLocked`, `LockHeld`, or an OS error). -/
theorem c7_no_sleep (t : Int) (o : LockOracle) (st : FileLockState)
    (h : t ≤ 0) :
    (lockWithTimeout t o st).sleeps = [] ∧
    (lock o st).sleeps = [] ∧
    (lockWithTimeout t o st).err ≠ some .errTimeout ∧
    (lockWithTimeout t o st).err ≠ some .errNotLocked := by
  rw [lockWithTimeout_nonpos t h o st]
  obtain ⟨h1, h2, h3⟩ := lockWithTimeout_zero_char o st
  exact ⟨h1, h1, h2, h3⟩

/-- C7 witness: the no-sleep statement at the concrete non-blocking
contended call. -/
theorem c7_witness :
    (0 : Int) ≤ 0 ∧
    ((lockWithTimeout 0 ⟨.ok, alwaysHeld⟩ newFileLock).sleeps = [] ∧
      (lock ⟨.ok, alwaysHeld⟩ newFileLock).sleeps = [] ∧
      (lockWithTimeout 0 ⟨.ok, alwaysHeld⟩ newFileLock).err ≠
        some .errTimeout ∧
      (lockWithTimeout 0 ⟨.ok, alwaysHeld⟩ newFileLock).err ≠
        some .errNotLocked) :=
  ⟨by decide, c7_no_sleep 0 ⟨.ok, alwaysHeld⟩ newFileLock (by decide)⟩

/-- C8: on a handle whose `locked` flag is true, any `Lock` or
`LockWithTimeout` call returns `ErrAlreadyLocked` and leaves the state
unchanged, sleeping never. -/
theorem c8_already_locked (t : Int) (o : LockOracle) (st : FileLockState)
    (h : st.locked = true) :
    lockWithTimeout t o st = ⟨some .errAlreadyLocked, st, []⟩ := by
  unfold lockWithTimeout
  simp [h]

/-- C8 witness: the second call on a locked handle at concrete inputs. -/
theorem c8_witness :
    (⟨true, true, true⟩ : FileLockState).locked = true ∧
    lockWithTimeout 5000000 ⟨.ok, alwaysHeld⟩ ⟨true, true, true⟩ =
      ⟨some .errAlreadyLocked, ⟨true, true, true⟩, []⟩ :=
  ⟨rfl,
    c8_already_locked 5000000 ⟨.ok, alwaysHeld⟩ ⟨true, true, true⟩ rfl⟩

/-- C9: for every handle state and every OS outcome, `Lock()` returns the
same result, state transition and sleeps as `LockWithTimeout(0)` — the code
defines it as exactly that call. -/
theorem c9_lock_is_zero_timeout (o : LockOracle) (st : FileLockState) :
    lock o st = lockWithTimeout 0 o st := rfl

/-- C10: for every strictly negative duration, `LockWithTimeout` behaves
identically to `LockWithTimeout(0)` — same result (never `Timeout`) and
same state transition. -/
theorem c10_negative_timeout (d : Int) (o : LockOracle)
    (st : FileLockState) (h : d < 0) :
    lockWithTimeout d o st = lockWithTimeout 0 o st ∧
    (lockWithTimeout d o st).err ≠ some .errTimeout := by
  have heq := lockWithTimeout_nonpos d (le_of_lt h) o st
  refine ⟨heq, ?_⟩
  rw [heq]
  exact (lockWithTimeout_zero_char o st).2.1

/-- C10 witness: a concrete negative duration behaves as duration 0. -/
theorem c10_witness :
    (-1000000 : Int) < 0 ∧
    (lockWithTimeout (-1000000) ⟨.ok, alwaysHeld⟩ newFileLock =
        lockWithTimeout 0 ⟨.ok, alwaysHeld⟩ newFileLock ∧
      (lockWithTimeout (-1000000) ⟨.ok, alwaysHeld⟩ newFileLock).err ≠
        some .errTimeout) :=
  ⟨by decide,
    c10_negative_timeout (-1000000) ⟨.ok, alwaysHeld⟩ newFileLock
      (by decide)⟩

end GoFs
